import Mathlib

/-
  Verification development for the shelly-waybar status aggregator
  (src/main.rs).  The Rust program polls a cloud API for the status of a
  list of Shelly smart-home devices, classifies each status payload by
  device kind, renders it into a text/tooltip fragment, and prints one
  merged JSON payload per cycle for a status bar.

  The shallow embedding below mirrors the source functions one-to-one:
  serde_json values become the `Json` inductive (with serde's
  integer/float distinction kept, floats modelled as rationals),
  side-effecting eprintln calls become explicit `LogEvent` lists,
  the desktop-notification collaborator becomes an explicit boolean
  outcome parameter plus a list of handed-over `Notif` intents, and the
  HTTP exchange becomes a `FetchOutcome` input (transport failure,
  decode failure, or a decoded `ShellyResponse`).
-/

/-- Model of a serde_json value.  serde_json keeps integers and floats
    distinct (`as_u64`/`as_i64` succeed only on integer-represented
    numbers); floats are modelled as exact rationals. -/
inductive Json where
  | null
  | bool (b : Bool)
  | numI (n : Int)
  | numF (q : Rat)
  | str (s : String)
  | arr (elems : List Json)
  | obj (fields : List (String × Json))

/-- Field lookup in an object's field list (first match). -/
def getField : List (String × Json) → String → Option Json
  | [], _ => none
  | (k, v) :: rest, key => if k = key then some v else getField rest key

/-- `Value::get`: `some` field of an object, `none` otherwise. -/
def Json.get (j : Json) (key : String) : Option Json :=
  match j with
  | .obj fields => getField fields key
  | _ => none

/-- serde_json `Index` for string keys used as `value[key]`: the field if
    present on an object, `Null` otherwise. -/
def Json.idx (j : Json) (key : String) : Json :=
  (j.get key).getD .null

/-- `Value::as_f64`: succeeds on both integer and float numbers. -/
def Json.asF64 : Json → Option Rat
  | .numI n => some (n : Rat)
  | .numF q => some q
  | _ => none

/-- `Value::as_u64`: succeeds only on non-negative integer numbers. -/
def Json.asU64 : Json → Option Nat
  | .numI n => if 0 ≤ n then some n.toNat else none
  | _ => none

/-- `Value::as_i64`: succeeds only on integer numbers. -/
def Json.asI64 : Json → Option Int
  | .numI n => some n
  | _ => none

/-- `Value::as_bool`. -/
def Json.asBool : Json → Option Bool
  | .bool b => some b
  | _ => none

/-- `Value::as_str`. -/
def Json.asStr : Json → Option String
  | .str s => some s
  | _ => none

/-- serde_json index assignment `value[key] = v` on an object: replaces
    the field in place when present, inserts otherwise (`Null`
    auto-vivifies to an object; the program only ever assigns to
    existing fields of objects). -/
def Json.setKey (j : Json) (key : String) (v : Json) : Json :=
  match j with
  | .obj fields => .obj (setFieldList fields key v)
  | .null => .obj [(key, v)]
  | other => other
where
  setFieldList : List (String × Json) → String → Json → List (String × Json)
    | [], key, v => [(key, v)]
    | (k, w) :: rest, key, v =>
      if k = key then (key, v) :: rest else (k, w) :: setFieldList rest key v

/-- Left-pad a digit string with zeros to the given width. -/
def padZeros (width : Nat) (s : String) : String :=
  String.mk (List.replicate (width - s.length) '0') ++ s

/-- Fixed-point decimal formatting with `d` fractional digits, the
    embedding of Rust's precision format specifier on an f64 value:
    the magnitude is scaled by ten to the `d`, rounded to the nearest
    integer with ties to even, and printed with the fractional part
    zero-padded to `d` digits (computed on the exact numerator and
    denominator of the rational). -/
def formatFixed (d : Nat) (q : Rat) : String :=
  let sign := if q.num < 0 then "-" else ""
  let scale : Nat := 10 ^ d
  let scaledNum : Nat := q.num.natAbs * scale
  let den : Nat := q.den
  let whole : Nat := scaledNum / den
  let rem : Nat := scaledNum % den
  let m : Nat :=
    if 2 * rem < den then whole
    else if den < 2 * rem then whole + 1
    else if whole % 2 = 0 then whole else whole + 1
  sign ++ toString (m / scale) ++ "." ++ padZeros d (toString (m % scale))

/-- The closed device-kind enumeration from src/main.rs. -/
inductive DeviceType where
  | Temperature
  | Plug
  | Door
  | Window
deriving DecidableEq

/-- Output format command-line option. -/
inductive OutputFormat where
  | Short
  | Long
  | Icons
deriving DecidableEq

/-- One diagnostic-stream line (eprintln) of the program, by call site. -/
inductive LogEvent where
  | invalidDeviceFormat (device : String)
  | invalidToken (message : String)
  | apiError (errors : Json)
  | unknownError
  | unsupportedDeviceType (deviceTypeStr : String)
  | autodetectFailed
  | noValidDeviceData

/-- A desktop-notification intent handed to the notification
    collaborator (summary and body of `Notification::new()`). -/
structure Notif where
  summary : String
  body : String

/-- Decoded response body of the status endpoint. -/
structure ShellyData where
  device_status : Option Json

/-- Decoded top-level response of the status endpoint. -/
structure ShellyResponse where
  isok : Bool
  errors : Option Json
  data : Option ShellyData

/-- Outcome of the HTTP exchange for one device: the transport send can
    fail, the JSON decode can fail, or a `ShellyResponse` is decoded. -/
inductive FetchOutcome where
  | transportError
  | decodeError
  | decoded (response : ShellyResponse)

/-- The door-state history map (`HashMap<String, bool>` keyed by the
    composite id-and-name key), as an association list. -/
def DoorMap := List (String × Bool)

/-- HashMap::get. -/
def mapFind : DoorMap → String → Option Bool
  | [], _ => none
  | (k, v) :: rest, key => if k = key then some v else mapFind rest key

/-- HashMap::insert (replace when the key is present). -/
def mapInsert : DoorMap → String → Bool → DoorMap
  | [], key, val => [(key, val)]
  | (k, v) :: rest, key, val =>
    if k = key then (key, val) :: rest else (k, v) :: mapInsert rest key val

/-- ASCII lowercasing of a string, the embedding of `str::to_lowercase`
    as applied to the device-type keywords (which are pure ASCII). -/
def toLowerString (s : String) : String :=
  String.mk (s.data.map Char.toLower)

/-- First split of a character list at a separator: the prefix before
    the first occurrence and the remainder after it. -/
def splitOnceChar (sep : Char) : List Char → Option (List Char × List Char)
  | [] => none
  | c :: cs =>
    if c = sep then some ([], cs)
    else
      match splitOnceChar sep cs with
      | none => none
      | some (pre, post) => some (c :: pre, post)

/-- `str::splitn(n, sep)` on a character list: at most `n` parts, the
    last part keeps any further separators unsplit. -/
def splitnCharAux (n : Nat) (sep : Char) (cs : List Char) : List (List Char) :=
  match n with
  | 0 => []
  | 1 => [cs]
  | Nat.succ (Nat.succ m) =>
    match splitOnceChar sep cs with
    | none => [cs]
    | some (pre, post) => pre :: splitnCharAux (Nat.succ m) sep post

/-- `str::splitn(n, sep)` on strings. -/
def splitn (n : Nat) (sep : Char) (s : String) : List String :=
  (splitnCharAux n sep s.data).map String.mk

/-- Embedding of `parse_device_info` (src/main.rs lines 167-179):
    split the entry at the first two colons; fewer than two parts is an
    invalid format (logged); the third part, when present, is the
    display name. -/
def parse_device_info (device : String) :
    Option (String × String × Option String) × List LogEvent :=
  let parts := splitn 3 ':' device
  if parts.length < 2 then
    (none, [.invalidDeviceFormat device])
  else
    (some ((parts.get? 0).getD "", (parts.get? 1).getD "", parts.get? 2), [])

/-- Embedding of `fetch_device_status` (src/main.rs lines 182-216) over
    an explicit exchange outcome: transport and decode failures are
    turned into `None` by `.ok()?` with no logging; a decoded response
    with `isok:false` logs the service error detail; otherwise the
    optional `device_status` payload is returned. -/
def fetch_device_status (outcome : FetchOutcome) : Option Json × List LogEvent :=
  match outcome with
  | .transportError => (none, [])
  | .decodeError => (none, [])
  | .decoded status =>
    if !status.isok then
      match status.errors with
      | some errors =>
        match errors.get "invalid_token" with
        | some errorMessage =>
          (none, [.invalidToken (errorMessage.asStr.getD "Unknown error")])
        | none => (none, [.apiError errors])
      | none => (none, [.unknownError])
    else
      match status.data with
      | none => (none, [])
      | some d => (d.device_status, [])

/-- Embedding of `match_device_type` (src/main.rs lines 219-233). -/
def match_device_type (device_type_str : String) : Option DeviceType × List LogEvent :=
  let lower := toLowerString device_type_str
  if lower = "temperature" then (some .Temperature, [])
  else if lower = "plug" then (some .Plug, [])
  else if lower = "door" then (some .Door, [])
  else if lower = "window" then (some .Window, [])
  else (none, [.unsupportedDeviceType device_type_str])

/-- Embedding of `autodetect_device_type` (src/main.rs lines 236-251). -/
def autodetect_device_type (json : Json) : Option DeviceType × List LogEvent :=
  if (json.get "temperature:0").isSome || (json.get "humidity:0").isSome then
    (some .Temperature, [])
  else if (json.get "switch:0").isSome then (some .Plug, [])
  else if (json.get "window:0").isSome then (some .Door, [])
  else if (json.get "tilt:0").isSome then (some .Window, [])
  else (none, [.autodetectFailed])

/-- The marker-key priority table of the spec's autodetection contract,
    in its fixed order. -/
def autodetectMarkerOrder : List (List String × DeviceType) :=
  [(["temperature:0", "humidity:0"], .Temperature),
   (["switch:0"], .Plug),
   (["window:0"], .Door),
   (["tilt:0"], .Window)]

/-- Modelled from the spec: autodetection inspects marker keys in a
    fixed priority order and returns the kind of the first marker
    present; no marker present yields unknown.  Stated for comparison
    with `autodetect_device_type`. -/
def autodetect_device_type_interp (j : Json) : Option DeviceType :=
  (autodetectMarkerOrder.find? (fun entry =>
    entry.1.any (fun key => (j.get key).isSome))).map Prod.snd

/-- The line-260 extraction of the open flag from a door status
    payload. -/
def door_is_open (device_status : Json) : Bool :=
  ((device_status.idx "window:0").idx "open").asBool.getD false

/-- Embedding of `handle_door_status` (src/main.rs lines 254-277).
    `notifyOk` is the outcome of the notification collaborator's
    `show()` call; the returned list records the intents handed to it.
    On a failed show, `.ok()?` returns early and the map insert is
    skipped (first component `none`); otherwise the new value is
    written back. -/
def handle_door_status (notifyOk : Bool) (device_id : String)
    (device_name : Option String) (device_status : Json)
    (door_status_map : DoorMap) : Option DoorMap × List Notif :=
  let is_open := door_is_open device_status
  let status_key := device_id ++ ":" ++ device_name.getD ""
  match mapFind door_status_map status_key with
  | some prev_status =>
    if prev_status ≠ is_open then
      let state := if is_open then "Open" else "Closed"
      let name := device_name.getD "Unnamed Door"
      let notif : Notif :=
        ⟨"Door Status Changed: " ++ name, "The door is now " ++ state⟩
      if notifyOk then (some (mapInsert door_status_map status_key is_open), [notif])
      else (none, [notif])
    else (some (mapInsert door_status_map status_key is_open), [])
  | none => (some (mapInsert door_status_map status_key is_open), [])

/-- Embedding of `parse_temperature_data` (src/main.rs lines 280-308).
    The unit labels reproduce the source's literal characters
    code-point for code-point. -/
def parse_temperature_data (device_status : Json) (format : OutputFormat)
    (unit : String) : Json :=
  let temp_c := ((device_status.idx "temperature:0").idx "tC").asF64.getD 0
  let temp_f := ((device_status.idx "temperature:0").idx "tF").asF64.getD 0
  let humidity := ((device_status.idx "humidity:0").idx "rh").asU64.getD 0
  let battery :=
    (((device_status.idx "devicepower:0").idx "battery").idx "percent").asU64.getD 0
  let rssi := ((device_status.idx "reporter").idx "rssi").asI64.getD 0
  let tu := if unit = "F" then (temp_f, "Â°F") else (temp_c, "Â°C")
  let temp := tu.1
  let unit_label := tu.2
  match format with
  | .Short => .obj
      [("text", .str ("T: " ++ formatFixed 1 temp ++ unit_label ++ " H: " ++
          toString humidity ++ "%")),
       ("tooltip", .str ("B: " ++ toString battery ++ "% RSSI: " ++
          toString rssi ++ "dBm"))]
  | .Long => .obj
      [("text", .str ("Temp: " ++ formatFixed 1 temp ++ unit_label ++ " Humidity: " ++
          toString humidity ++ "%")),
       ("tooltip", .str ("Battery: " ++ toString battery ++ "% RSSI: " ++
          toString rssi ++ "dBm"))]
  | .Icons => .obj
      [("text", .str ("ï‹‰" ++ formatFixed 1 temp ++ unit_label ++
          " ðŸ’§" ++ toString humidity ++ "%")),
       ("tooltip", .str ("ðŸ”‹" ++ toString battery ++
          "% ðŸ“¶" ++ toString rssi ++ "dBm"))]

/-- Embedding of `parse_plug_data` (src/main.rs lines 311-336). -/
def parse_plug_data (device_status : Json) (format : OutputFormat) : Json :=
  let power := ((device_status.idx "switch:0").idx "apower").asF64.getD 0
  let voltage := ((device_status.idx "switch:0").idx "voltage").asF64.getD 0
  let current := ((device_status.idx "switch:0").idx "current").asF64.getD 0
  let output := ((device_status.idx "switch:0").idx "output").asBool.getD false
  let rssi := ((device_status.idx "wifi").idx "rssi").asI64.getD 0
  let output_state := if output then "ON" else "OFF"
  match format with
  | .Short => .obj
      [("text", .str ("P: " ++ formatFixed 1 power ++ "W V: " ++
          formatFixed 1 voltage ++ "V")),
       ("tooltip", .str ("I: " ++ formatFixed 3 current ++ "A RSSI: " ++
          toString rssi ++ "dBm O: " ++ output_state))]
  | .Long => .obj
      [("text", .str ("Power: " ++ formatFixed 1 power ++ "W Voltage: " ++
          formatFixed 1 voltage ++ "V")),
       ("tooltip", .str ("Current: " ++ formatFixed 3 current ++ "A WiFi RSSI: " ++
          toString rssi ++ "dBm Output: " ++ output_state))]
  | .Icons => .obj
      [("text", .str ("âš¡" ++ formatFixed 1 power ++
          "W ðŸ”Œ" ++ formatFixed 1 voltage ++ "V")),
       ("tooltip", .str ("ðŸ”‹" ++ formatFixed 3 current ++
          "A ðŸ“¶" ++ toString rssi ++
          "dBm ðŸ”†" ++ output_state))]

/-- Embedding of `parse_window_or_door_data` (src/main.rs lines 338-370). -/
def parse_window_or_door_data (device_status : Json) (is_window : Bool)
    (format : OutputFormat) : Json :=
  let is_open := ((device_status.idx "window:0").idx "open").asBool.getD false
  let lux := ((device_status.idx "illuminance:0").idx "lux").asU64.getD 0
  let battery :=
    (((device_status.idx "devicepower:0").idx "battery").idx "percent").asU64.getD 0
  let rssi := ((device_status.idx "reporter").idx "rssi").asI64.getD 0
  let state := if is_open then "Open" else "Closed"
  let tilt :=
    if is_window then
      ", Tilt: " ++ toString (((device_status.idx "tilt:0").idx "angle").asU64.getD 0)
    else ""
  match format with
  | .Short => .obj
      [("text", .str (state ++ ": L: " ++ toString lux ++ tilt)),
       ("tooltip", .str ("B: " ++ toString battery ++ "% RSSI: " ++
          toString rssi ++ "dBm"))]
  | .Long => .obj
      [("text", .str (state ++ ", Lux: " ++ toString lux ++ tilt)),
       ("tooltip", .str ("Battery: " ++ toString battery ++ "% RSSI: " ++
          toString rssi ++ "dBm"))]
  | .Icons => .obj
      [("text", .str ((if is_open then "ðŸŸ¢"
            else "ðŸ”´") ++
          " ðŸ”†" ++ toString lux ++ tilt)),
       ("tooltip", .str ("ðŸ”‹" ++ toString battery ++
          "% ðŸ“¶" ++ toString rssi ++ "dBm"))]

/-- The device-type dispatch of `process_device` (src/main.rs lines
    126-130): an empty declared type selects autodetection, otherwise
    the declared string is matched. -/
def resolve_device_type (device_type_str : String) (device_status : Json) :
    Option DeviceType × List LogEvent :=
  if device_type_str = "" then autodetect_device_type device_status
  else match_device_type device_type_str

/-- The name-decoration step of `process_device` (src/main.rs lines
    149-161): append the display name to the text and prefix the
    tooltip with a device line. -/
def add_device_name (device_name : Option String) (output : Json) : Json :=
  match device_name with
  | none => output
  | some name =>
    let output1 := output.setKey "text"
      (.str (((output.idx "text").asStr.getD "") ++ " (" ++ name ++ ")"))
    output1.setKey "tooltip"
      (.str ("Device: " ++ name ++ "\n" ++ ((output1.idx "tooltip").asStr.getD "")))

/-- Embedding of `process_device` (src/main.rs lines 116-164): parse the
    entry, fetch the status, resolve the device type, render (running
    the door notifier first for doors), and decorate with the display
    name.  Every early `?` return yields no fragment and leaves the
    door map unchanged; logs and notification intents are collected. -/
def process_device (notifyOk : Bool) (fetched : FetchOutcome) (device : String)
    (format : OutputFormat) (unit : String) (door_status_map : DoorMap) :
    Option Json × DoorMap × List LogEvent × List Notif :=
  match parse_device_info device with
  | (none, logs) => (none, door_status_map, logs, [])
  | (some (device_type_str, device_id, device_name), logs0) =>
    match fetch_device_status fetched with
    | (none, logsF) => (none, door_status_map, logs0 ++ logsF, [])
    | (some device_status, logsF) =>
      match resolve_device_type device_type_str device_status with
      | (none, logsT) => (none, door_status_map, logs0 ++ logsF ++ logsT, [])
      | (some device_type, logsT) =>
        let logs := logs0 ++ logsF ++ logsT
        match device_type with
        | .Temperature =>
          (some (add_device_name device_name
              (parse_temperature_data device_status format unit)),
           door_status_map, logs, [])
        | .Plug =>
          (some (add_device_name device_name
              (parse_plug_data device_status format)),
           door_status_map, logs, [])
        | .Door =>
          match handle_door_status notifyOk device_id device_name device_status
              door_status_map with
          | (none, notifs) => (none, door_status_map, logs, notifs)
          | (some newMap, notifs) =>
            (some (add_device_name device_name
                (parse_window_or_door_data device_status false format)),
             newMap, logs, notifs)
        | .Window =>
          (some (add_device_name device_name
              (parse_window_or_door_data device_status true format)),
           door_status_map, logs, [])

/-- One device's inputs for a poll cycle: its configured entry string,
    the outcome of its HTTP exchange, and the outcome of any
    notification show call made while processing it. -/
structure DeviceCtx where
  entry : String
  fetched : FetchOutcome
  notifyOk : Bool

/-- Accumulated observable state of one poll cycle: collected fragments
    in device-list order, the door-state history, diagnostic log lines
    and notification intents. -/
structure CycleState where
  outputs : List Json
  doorMap : DoorMap
  logs : List LogEvent
  notifs : List Notif

/-- One iteration of the per-device loop of `process_devices_loop`
    (src/main.rs lines 84-89): process the device and push its fragment
    when one is produced. -/
def cycle_step (format : OutputFormat) (unit : String) (s : CycleState)
    (d : DeviceCtx) : CycleState :=
  match process_device d.notifyOk d.fetched d.entry format unit s.doorMap with
  | (o, newMap, lg, nt) =>
    { outputs := s.outputs ++ o.toList, doorMap := newMap,
      logs := s.logs ++ lg, notifs := s.notifs ++ nt }

/-- The per-device loop of one poll cycle over the configured device
    list, starting from a given door-state history. -/
def run_cycle (devices : List DeviceCtx) (format : OutputFormat) (unit : String)
    (door_status_map : DoorMap) : CycleState :=
  devices.foldl (cycle_step format unit)
    { outputs := [], doorMap := door_status_map, logs := [], notifs := [] }

/-- Embedding of the merge-and-emit tail of `process_devices_loop`
    (src/main.rs lines 91-109): an empty output list prints nothing and
    logs the no-data condition; otherwise the text fields are joined
    with the configured separator, the tooltip fields with newlines,
    and exactly one merged payload is produced. -/
def emit_outputs (outputs : List Json) (waybar_separator : String) :
    Option Json × List LogEvent :=
  if outputs.isEmpty then (none, [.noValidDeviceData])
  else
    let merged_text := String.intercalate waybar_separator
      (outputs.map (fun obj => ((obj.idx "text").asStr).getD ""))
    let merged_tooltip := String.intercalate "\n"
      (outputs.map (fun obj => ((obj.idx "tooltip").asStr).getD ""))
    (some (.obj [("text", .str merged_text), ("tooltip", .str merged_tooltip)]),
     [])

/-- A rendered fragment as a JSON object, the shape every renderer
    returns. -/
def fragment_json (text tooltip : String) : Json :=
  .obj [("text", .str text), ("tooltip", .str tooltip)]

/-- Door status payload with the open flag set. -/
def doorOpenStatus : Json := .obj [("window:0", .obj [("open", .bool true)])]

/-- Door status payload with the open flag cleared. -/
def doorClosedStatus : Json := .obj [("window:0", .obj [("open", .bool false)])]

/-- The temperature example payload of the spec's testable properties. -/
def tempExampleStatus : Json := .obj
  [("temperature:0", .obj [("tC", .numF (mkRat 45 2)), ("tF", .numF (mkRat 145 2))]),
   ("humidity:0", .obj [("rh", .numI 50)]),
   ("devicepower:0", .obj [("battery", .obj [("percent", .numI 80)])]),
   ("reporter", .obj [("rssi", .numI (-60))])]

/-- A successful decoded response carrying a given device status. -/
def okResponse (device_status : Json) : ShellyResponse :=
  { isok := true, errors := none, data := some { device_status := some device_status } }

/-- All five field extractions of `parse_temperature_data` fail on the
    payload (field absent or of the wrong JSON type). -/
def tempFieldsAbsent (j : Json) : Prop :=
  ((j.idx "temperature:0").idx "tC").asF64 = none ∧
  ((j.idx "temperature:0").idx "tF").asF64 = none ∧
  ((j.idx "humidity:0").idx "rh").asU64 = none ∧
  (((j.idx "devicepower:0").idx "battery").idx "percent").asU64 = none ∧
  ((j.idx "reporter").idx "rssi").asI64 = none

/-- All five field extractions of `parse_plug_data` fail on the
    payload. -/
def plugFieldsAbsent (j : Json) : Prop :=
  ((j.idx "switch:0").idx "apower").asF64 = none ∧
  ((j.idx "switch:0").idx "voltage").asF64 = none ∧
  ((j.idx "switch:0").idx "current").asF64 = none ∧
  ((j.idx "switch:0").idx "output").asBool = none ∧
  ((j.idx "wifi").idx "rssi").asI64 = none

/-- All five field extractions of `parse_window_or_door_data` (and the
    window-only tilt extraction) fail on the payload. -/
def windoorFieldsAbsent (j : Json) : Prop :=
  ((j.idx "window:0").idx "open").asBool = none ∧
  ((j.idx "illuminance:0").idx "lux").asU64 = none ∧
  (((j.idx "devicepower:0").idx "battery").idx "percent").asU64 = none ∧
  ((j.idx "reporter").idx "rssi").asI64 = none ∧
  ((j.idx "tilt:0").idx "angle").asU64 = none

instance (j : Json) : Decidable (tempFieldsAbsent j) := by
  unfold tempFieldsAbsent; infer_instance

instance (j : Json) : Decidable (plugFieldsAbsent j) := by
  unfold plugFieldsAbsent; infer_instance

instance (j : Json) : Decidable (windoorFieldsAbsent j) := by
  unfold windoorFieldsAbsent; infer_instance

/- Helper lemmas shared by the claim theorems. -/

theorem fragment_json_text (t tt : String) :
    (((fragment_json t tt).idx "text").asStr).getD "" = t := rfl

theorem fragment_json_tooltip (t tt : String) :
    (((fragment_json t tt).idx "tooltip").asStr).getD "" = tt := rfl

theorem map_fragment_text (frs : List (String × String)) :
    ((frs.map (fun p => fragment_json p.1 p.2)).map
      (fun obj => ((obj.idx "text").asStr).getD "")) = frs.map Prod.fst := by
  induction frs with
  | nil => rfl
  | cons p l ih => simp only [List.map_cons]; rw [ih]; rfl

theorem map_fragment_tooltip (frs : List (String × String)) :
    ((frs.map (fun p => fragment_json p.1 p.2)).map
      (fun obj => ((obj.idx "tooltip").asStr).getD "")) = frs.map Prod.snd := by
  induction frs with
  | nil => rfl
  | cons p l ih => simp only [List.map_cons]; rw [ih]; rfl

theorem string_data_append (a b : String) : (a ++ b).data = a.data ++ b.data := by
  cases a; cases b; rfl

theorem splitOnceChar_of_not_mem (cs : List Char) (h : ':' ∉ cs) :
    splitOnceChar ':' cs = none := by
  induction cs with
  | nil => rfl
  | cons c cs ih =>
    have h1 : ¬(c = ':') := fun e => h (by rw [e]; exact List.mem_cons_self _ _)
    have h2 : ':' ∉ cs := fun e => h (List.mem_cons_of_mem _ e)
    simp [splitOnceChar, h1, ih h2]

theorem splitOnceChar_append (pre post : List Char) (h : ':' ∉ pre) :
    splitOnceChar ':' (pre ++ ':' :: post) = some (pre, post) := by
  induction pre with
  | nil => simp [splitOnceChar]
  | cons c cs ih =>
    have h1 : ¬(c = ':') := fun e => h (by rw [e]; exact List.mem_cons_self _ _)
    have h2 : ':' ∉ cs := fun e => h (List.mem_cons_of_mem _ e)
    simp [splitOnceChar, h1, ih h2]

/-- C1: on an empty set of successfully processed entries the Snapshot
    Publisher emits no payload and logs the no-data condition; on a
    non-empty set it emits exactly one payload whose merged text is the
    per-device texts joined by the configured separator in table order
    and whose merged tooltip is the per-device tooltips joined by
    newline. -/
theorem snapshot_publisher_merge_correct :
    (∀ waybar_separator : String,
      emit_outputs [] waybar_separator = (none, [.noValidDeviceData])) ∧
    (∀ (frs : List (String × String)) (waybar_separator : String), frs ≠ [] →
      emit_outputs (frs.map (fun p => fragment_json p.1 p.2)) waybar_separator =
        (some (fragment_json
            (String.intercalate waybar_separator (frs.map Prod.fst))
            (String.intercalate "\n" (frs.map Prod.snd))), [])) := by
  constructor
  · intro sep; rfl
  · intro frs sep h
    cases frs with
    | nil => exact absurd rfl h
    | cons p l =>
      simp only [emit_outputs, List.map_cons, List.isEmpty_cons, Bool.false_eq_true,
        if_false]
      rw [map_fragment_text l, map_fragment_tooltip l]
      rfl

/-- Witness for C1: a two-device table merged with the configured
    separator. -/
theorem snapshot_publisher_merge_correct_witness :
    emit_outputs [fragment_json "a" "b", fragment_json "c" "d"] " | " =
      (some (fragment_json "a | c" "b\nd"), []) :=
  snapshot_publisher_merge_correct.2 [("a", "b"), ("c", "d")] " | " (by decide)

/-- C2 counterexample: starting from an empty history, the first door
    observation with the open flag set produces NO alert intent (the
    intent list is empty) although it does store the value; the claim
    asserts an alert intent is produced on the first observation. -/
theorem door_first_observation_no_alert :
    handle_door_status true "door-12345" (some "Front Door") doorOpenStatus [] =
      (some [("door-12345:Front Door", true)], []) := rfl

/-- C2 as amended: from an empty history, the first observation with
    the open flag set produces no alert and stores true under the
    composite key; the second observation with the flag cleared
    produces an alert intent and stores false; the third observation
    with the flag cleared produces no alert and leaves false stored. -/
theorem door_transition_sequence :
    handle_door_status true "door-12345" (some "Front Door") doorOpenStatus [] =
      (some [("door-12345:Front Door", true)], []) ∧
    handle_door_status true "door-12345" (some "Front Door") doorClosedStatus
        [("door-12345:Front Door", true)] =
      (some [("door-12345:Front Door", false)],
       [⟨"Door Status Changed: Front Door", "The door is now Closed"⟩]) ∧
    handle_door_status true "door-12345" (some "Front Door") doorClosedStatus
        [("door-12345:Front Door", false)] =
      (some [("door-12345:Front Door", false)], []) :=
  ⟨rfl, rfl, rfl⟩

/-- C3 counterexample: a door device whose alert fires while the
    notification collaborator fails (`show()` returns an error, turned
    into an early return by `.ok()?`): the device contributes no
    fragment and the history still holds the old value, so processing
    does not complete as the claim asserts. -/
theorem notify_failure_aborts_device_concrete :
    (process_device false (.decoded (okResponse doorOpenStatus))
        "door:door-1:Front" .Long "C" [("door-1:Front", false)]).1 = none ∧
    (process_device false (.decoded (okResponse doorOpenStatus))
        "door:door-1:Front" .Long "C" [("door-1:Front", false)]).2.1 =
      [("door-1:Front", false)] :=
  ⟨rfl, rfl⟩

/-- C3 as amended: when a door observation triggers an alert and the
    notification collaborator fails to present it, that device's
    processing is aborted for the cycle: the alert intent is handed
    over, but no fragment is produced, the door history is left
    unchanged, and nothing is logged (the process itself does not
    crash; the cycle goes on). -/
theorem notify_failure_skips_device (entry id nm : String) (j : Json)
    (m : DoorMap) (prev : Bool) (format : OutputFormat) (unit : String)
    (r : ShellyResponse)
    (hparse : parse_device_info entry = (some ("door", id, some nm), []))
    (hfetch : fetch_device_status (.decoded r) = (some j, []))
    (hprev : mapFind m (id ++ ":" ++ nm) = some prev)
    (hchange : prev ≠ door_is_open j) :
    process_device false (.decoded r) entry format unit m =
      (none, m, [],
       [⟨"Door Status Changed: " ++ nm,
         "The door is now " ++ (if door_is_open j then "Open" else "Closed")⟩]) := by
  have hres : resolve_device_type "door" j = (some .Door, []) := rfl
  have hhandle : handle_door_status false id (some nm) j m =
      (none,
       [⟨"Door Status Changed: " ++ nm,
         "The door is now " ++ (if door_is_open j then "Open" else "Closed")⟩]) := by
    simp only [handle_door_status, Option.getD_some]
    rw [hprev]
    simp only [if_pos hchange]
    rfl
  simp only [process_device, hparse, hfetch, hres, hhandle]
  simp

/-- Witness for C3's amended theorem at a concrete door device with a
    stored differing state and a failing collaborator. -/
theorem notify_failure_skips_device_witness :
    process_device false (.decoded (okResponse doorOpenStatus))
        "door:door-1:Front" .Long "C" [("door-1:Front", false)] =
      (none, [("door-1:Front", false)], [],
       [⟨"Door Status Changed: Front", "The door is now Open"⟩]) :=
  notify_failure_skips_device "door:door-1:Front" "door-1" "Front"
    doorOpenStatus [("door-1:Front", false)] false .Long "C"
    (okResponse doorOpenStatus) rfl rfl rfl (by decide)

/-- C4 counterexample: a transport failure and a decode failure of the
    status fetch produce NO diagnostic log line at all (the code turns
    both into `None` via `.ok()?` silently), contradicting the claim
    that the error is logged with device context. -/
theorem fetch_failure_not_logged :
    fetch_device_status .transportError = (none, []) ∧
    fetch_device_status .decodeError = (none, []) :=
  ⟨rfl, rfl⟩

/-- C4 as amended: a transport or response-decode failure of the status
    fetch is non-fatal but silently skipped (no log line is produced);
    the failed device contributes no fragment, no log, no notification
    and no history change, and the cycle proceeds to the remaining
    devices exactly as if the device were absent (no retry within the
    cycle). -/
theorem fetch_failure_nonfatal :
    fetch_device_status .transportError = (none, []) ∧
    fetch_device_status .decodeError = (none, []) ∧
    (∀ (d : DeviceCtx) (devices : List DeviceCtx) (format : OutputFormat)
        (unit : String) (m : DoorMap),
      (d.fetched = .transportError ∨ d.fetched = .decodeError) →
      (∃ info, parse_device_info d.entry = (some info, [])) →
      run_cycle (d :: devices) format unit m = run_cycle devices format unit m) := by
  refine ⟨rfl, rfl, ?_⟩
  intro d devices format unit m hfail hex
  obtain ⟨⟨ts, id, nm⟩, hinfo⟩ := hex
  have hproc : process_device d.notifyOk d.fetched d.entry format unit m =
      (none, m, [], []) := by
    rcases hfail with h | h <;>
      · simp only [process_device, hinfo, h, fetch_device_status]
        simp
  simp only [run_cycle, List.foldl_cons]
  rw [show cycle_step format unit
      { outputs := [], doorMap := m, logs := [], notifs := [] } d =
      { outputs := [], doorMap := m, logs := [], notifs := [] } from by
    simp [cycle_step, hproc]]

/-- Witness for C4's amended theorem: a one-device cycle whose only
    device hits a transport failure equals the empty cycle. -/
theorem fetch_failure_nonfatal_witness :
    run_cycle [⟨"plug:p1", .transportError, true⟩] .Short "C" [] =
      run_cycle [] .Short "C" [] :=
  fetch_failure_nonfatal.2.2 ⟨"plug:p1", .transportError, true⟩ [] .Short "C" []
    (Or.inl rfl) ⟨("plug", "p1", none), rfl⟩

/-- C5: declared-type classification matches case-insensitively against
    the closed keyword set and returns the corresponding kind; any
    other string yields none, logs the unsupported type, and makes the
    caller skip the device (no fragment). -/
theorem match_device_type_case_insensitive :
    (∀ s, toLowerString s = "temperature" →
      match_device_type s = (some .Temperature, [])) ∧
    (∀ s, toLowerString s = "plug" → match_device_type s = (some .Plug, [])) ∧
    (∀ s, toLowerString s = "door" → match_device_type s = (some .Door, [])) ∧
    (∀ s, toLowerString s = "window" → match_device_type s = (some .Window, [])) ∧
    (∀ s, toLowerString s ∉ (["temperature", "plug", "door", "window"] : List String) →
      match_device_type s = (none, [.unsupportedDeviceType s])) ∧
    (∀ (notifyOk : Bool) (fetched : FetchOutcome) (entry ts id : String)
        (nm : Option String) (j : Json) (format : OutputFormat) (unit : String)
        (m : DoorMap),
      parse_device_info entry = (some (ts, id, nm), []) →
      fetch_device_status fetched = (some j, []) →
      ts ≠ "" →
      toLowerString ts ∉ (["temperature", "plug", "door", "window"] : List String) →
      process_device notifyOk fetched entry format unit m =
        (none, m, [.unsupportedDeviceType ts], [])) := by
  have hnone : ∀ s,
      toLowerString s ∉ (["temperature", "plug", "door", "window"] : List String) →
      match_device_type s = (none, [.unsupportedDeviceType s]) := by
    intro s h
    simp only [List.mem_cons, List.not_mem_nil, or_false, not_or] at h
    obtain ⟨h1, h2, h3, h4⟩ := h
    simp [match_device_type, h1, h2, h3, h4]
  refine ⟨?_, ?_, ?_, ?_, hnone, ?_⟩
  · intro s h; simp [match_device_type, h]
  · intro s h; simp [match_device_type, h]
  · intro s h; simp [match_device_type, h]
  · intro s h; simp [match_device_type, h]
  · intro notifyOk fetched entry ts id nm j format unit m hp hf hne hmem
    have hres : resolve_device_type ts j = (none, [.unsupportedDeviceType ts]) := by
      simp [resolve_device_type, hne, hnone ts hmem]
    simp only [process_device, hp, hf, hres]
    simp

/-- Witness for C5: a mixed-case keyword classifies, a foreign string
    is rejected with a log line. -/
theorem match_device_type_case_insensitive_witness :
    match_device_type "TeMpErAtUrE" = (some .Temperature, []) ∧
    match_device_type "fridge" = (none, [.unsupportedDeviceType "fridge"]) :=
  ⟨match_device_type_case_insensitive.1 "TeMpErAtUrE" (by decide),
   match_device_type_case_insensitive.2.2.2.2.1 "fridge" (by decide)⟩

/-- C6: autodetection agrees everywhere with the spec's fixed-priority
    first-match rule over the marker keys (temperature/humidity, then
    switch, then window, then tilt), and when no marker is present it
    returns none and logs the failure; as a function it is
    deterministic and never guesses among multiple candidates. -/
theorem autodetect_priority_first_match :
    (∀ j, (autodetect_device_type j).1 = autodetect_device_type_interp j) ∧
    (∀ j, autodetect_device_type_interp j = none →
      autodetect_device_type j = (none, [.autodetectFailed])) := by
  constructor
  · intro j
    cases h1 : (j.get "temperature:0").isSome <;>
      cases h2 : (j.get "humidity:0").isSome <;>
        cases h3 : (j.get "switch:0").isSome <;>
          cases h4 : (j.get "window:0").isSome <;>
            cases h5 : (j.get "tilt:0").isSome <;>
              simp [autodetect_device_type, autodetect_device_type_interp,
                autodetectMarkerOrder, List.find?, h1, h2, h3, h4, h5]
  · intro j h
    cases h1 : (j.get "temperature:0").isSome <;>
      cases h2 : (j.get "humidity:0").isSome <;>
        cases h3 : (j.get "switch:0").isSome <;>
          cases h4 : (j.get "window:0").isSome <;>
            cases h5 : (j.get "tilt:0").isSome <;>
              simp_all [autodetect_device_type, autodetect_device_type_interp,
                autodetectMarkerOrder, List.find?]

/-- Witness for C6: a payload without marker keys autodetects to none
    with the failure logged. -/
theorem autodetect_priority_first_match_witness :
    autodetect_device_type (Json.obj []) = (none, [.autodetectFailed]) :=
  autodetect_priority_first_match.2 (Json.obj []) rfl

/-- C7: every renderer is total on arbitrary raw payloads — it always
    returns a text/tooltip fragment object — and when every extracted
    field is absent or of the wrong JSON type the output equals the
    output on the empty (null) payload, whose concrete values exhibit
    the explicit defaults: zero for numeric fields and false for
    boolean fields (closed state, OFF output). -/
theorem render_total_with_defaults :
    (∀ (j : Json) (format : OutputFormat) (unit : String), ∃ t tt,
      parse_temperature_data j format unit = fragment_json t tt) ∧
    (∀ (j : Json) (format : OutputFormat), ∃ t tt,
      parse_plug_data j format = fragment_json t tt) ∧
    (∀ (j : Json) (is_window : Bool) (format : OutputFormat), ∃ t tt,
      parse_window_or_door_data j is_window format = fragment_json t tt) ∧
    (∀ (j : Json) (format : OutputFormat) (unit : String), tempFieldsAbsent j →
      parse_temperature_data j format unit =
        parse_temperature_data .null format unit) ∧
    (∀ (j : Json) (format : OutputFormat), plugFieldsAbsent j →
      parse_plug_data j format = parse_plug_data .null format) ∧
    (∀ (j : Json) (is_window : Bool) (format : OutputFormat),
      windoorFieldsAbsent j →
      parse_window_or_door_data j is_window format =
        parse_window_or_door_data .null is_window format) ∧
    ((parse_temperature_data .null .Short "C").idx "text").asStr =
      some "T: 0.0Â°C H: 0%" ∧
    ((parse_temperature_data .null .Short "C").idx "tooltip").asStr =
      some "B: 0% RSSI: 0dBm" ∧
    ((parse_plug_data .null .Short).idx "text").asStr = some "P: 0.0W V: 0.0V" ∧
    ((parse_plug_data .null .Short).idx "tooltip").asStr =
      some "I: 0.000A RSSI: 0dBm O: OFF" ∧
    ((parse_window_or_door_data .null true .Short).idx "text").asStr =
      some "Closed: L: 0, Tilt: 0" := by
  refine ⟨?_, ?_, ?_, ?_, ?_, ?_, by decide, by decide, by decide, by decide,
    by decide⟩
  · intro j format unit; cases format <;> exact ⟨_, _, rfl⟩
  · intro j format; cases format <;> exact ⟨_, _, rfl⟩
  · intro j is_window format; cases format <;> exact ⟨_, _, rfl⟩
  · intro j format unit h
    obtain ⟨h1, h2, h3, h4, h5⟩ := h
    cases format <;>
      (simp only [parse_temperature_data]; rw [h1, h2, h3, h4, h5]; rfl)
  · intro j format h
    obtain ⟨h1, h2, h3, h4, h5⟩ := h
    cases format <;>
      (simp only [parse_plug_data]; rw [h1, h2, h3, h4, h5]; rfl)
  · intro j is_window format h
    obtain ⟨h1, h2, h3, h4, h5⟩ := h
    cases format <;>
      (simp only [parse_window_or_door_data]; rw [h1, h2, h3, h4, h5]; rfl)

/-- Witness for C7: a payload whose fields are present but wrongly
    typed renders exactly like the empty payload. -/
theorem render_total_with_defaults_witness :
    tempFieldsAbsent (Json.obj [("temperature:0", .str "x")]) ∧
    parse_temperature_data (Json.obj [("temperature:0", .str "x")]) .Short "C" =
      parse_temperature_data .null .Short "C" :=
  ⟨by decide,
   render_total_with_defaults.2.2.2.1
     (Json.obj [("temperature:0", .str "x")]) .Short "C" (by decide)⟩

/-- C8 counterexample: on the spec's temperature example payload with
    format Short and unit C, the rendered text is NOT the claim's
    string with a plain degree sign U+00B0: the source's unit label is
    the two-character sequence U+00C2 U+00B0 as stored in src/main.rs
    (and asserted identically by the program's own test). -/
theorem temperature_example_text_mismatch :
    ((parse_temperature_data tempExampleStatus .Short "C").idx "text").asStr ≠
      some "T: 22.5°C H: 50%" := by decide

/-- C8 as amended: the example renders text "T: 22.5", then the
    two-character label U+00C2 U+00B0 and "C", then " H: 50%", with
    tooltip "B: 80% RSSI: -60dBm". -/
theorem temperature_example_render :
    ((parse_temperature_data tempExampleStatus .Short "C").idx "text").asStr =
      some "T: 22.5Â°C H: 50%" ∧
    ((parse_temperature_data tempExampleStatus .Short "C").idx "tooltip").asStr =
      some "B: 80% RSSI: -60dBm" := by
  exact ⟨by decide, by decide⟩

theorem splitnCharAux_three (sep : Char) (cs : List Char) :
    splitnCharAux 3 sep cs =
      match splitOnceChar sep cs with
      | none => [cs]
      | some (pre, post) => pre :: splitnCharAux 2 sep post := rfl

theorem splitnCharAux_two (sep : Char) (cs : List Char) :
    splitnCharAux 2 sep cs =
      match splitOnceChar sep cs with
      | none => [cs]
      | some (pre, post) => pre :: [post] := rfl

theorem parse_device_info_no_colon (s : String) (h : ':' ∉ s.data) :
    parse_device_info s = (none, [.invalidDeviceFormat s]) := by
  simp only [parse_device_info, splitn, splitnCharAux_three,
    splitOnceChar_of_not_mem s.data h]
  rfl

theorem parse_device_info_two_parts (t r : String) (ht : ':' ∉ t.data)
    (hr : ':' ∉ r.data) :
    parse_device_info (t ++ ":" ++ r) = (some (t, r, none), []) := by
  have hd : (t ++ ":" ++ r).data = t.data ++ ':' :: r.data := by
    rw [string_data_append, string_data_append, List.append_assoc]; rfl
  simp only [parse_device_info, splitn, hd, splitnCharAux_three,
    splitOnceChar_append t.data r.data ht, splitnCharAux_two,
    splitOnceChar_of_not_mem r.data hr]
  rfl

theorem parse_device_info_three_parts (t i rest : String) (ht : ':' ∉ t.data)
    (hi : ':' ∉ i.data) :
    parse_device_info (t ++ ":" ++ i ++ ":" ++ rest) =
      (some (t, i, some rest), []) := by
  have hd : (t ++ ":" ++ i ++ ":" ++ rest).data =
      t.data ++ ':' :: (i.data ++ ':' :: rest.data) := by
    rw [string_data_append, string_data_append, string_data_append,
      string_data_append, List.append_assoc, List.append_assoc,
      List.append_assoc]
    rfl
  simp only [parse_device_info, splitn, hd, splitnCharAux_three,
    splitOnceChar_append t.data (i.data ++ ':' :: rest.data) ht,
    splitnCharAux_two, splitOnceChar_append i.data rest.data hi]
  rfl

/-- C10: a device-list entry without a colon is rejected, logged and
    contributes nothing; otherwise the declared type is the substring
    before the first colon (empty selects autodetection in the
    dispatch), the identifier sits between the first and second colons,
    and the display name, when present, is the whole remainder after
    the second colon with further colons preserved. -/
theorem device_entry_parsing :
    (∀ s : String, ':' ∉ s.data →
      parse_device_info s = (none, [.invalidDeviceFormat s])) ∧
    (∀ t r : String, ':' ∉ t.data → ':' ∉ r.data →
      parse_device_info (t ++ ":" ++ r) = (some (t, r, none), [])) ∧
    (∀ t i rest : String, ':' ∉ t.data → ':' ∉ i.data →
      parse_device_info (t ++ ":" ++ i ++ ":" ++ rest) =
        (some (t, i, some rest), [])) ∧
    (∀ (ts : String) (j : Json),
      (ts = "" → resolve_device_type ts j = autodetect_device_type j) ∧
      (ts ≠ "" → resolve_device_type ts j = match_device_type ts)) ∧
    (∀ (notifyOk : Bool) (fetched : FetchOutcome) (s : String)
        (format : OutputFormat) (unit : String) (m : DoorMap), ':' ∉ s.data →
      process_device notifyOk fetched s format unit m =
        (none, m, [.invalidDeviceFormat s], [])) := by
  refine ⟨parse_device_info_no_colon, parse_device_info_two_parts,
    parse_device_info_three_parts, ?_, ?_⟩
  · intro ts j
    constructor
    · intro h; simp [resolve_device_type, h]
    · intro h; simp [resolve_device_type, h]
  · intro notifyOk fetched s format unit m h
    simp only [process_device, parse_device_info_no_colon s h]

/-- Witness for C10: a colon-free entry is rejected; two- and
    three-part entries decompose at the first two colons; a name keeps
    its extra colons. -/
theorem device_entry_parsing_witness :
    parse_device_info "invalidformat" = (none, [.invalidDeviceFormat "invalidformat"]) ∧
    parse_device_info "plug:67890" = (some ("plug", "67890", none), []) ∧
    parse_device_info "temperature:12345:Living Room" =
      (some ("temperature", "12345", some "Living Room"), []) ∧
    parse_device_info "door:d1:a:b" = (some ("door", "d1", some "a:b"), []) :=
  ⟨device_entry_parsing.1 "invalidformat" (by decide),
   device_entry_parsing.2.1 "plug" "67890" (by decide) (by decide),
   device_entry_parsing.2.2.1 "temperature" "12345" "Living Room" (by decide)
     (by decide),
   device_entry_parsing.2.2.1 "door" "d1" "a:b" (by decide) (by decide)⟩
